import Mathlib

/-!
# Host program of the image-thresholding example (`cl_helloworld/src/host.cpp`)

A shallow embedding of `host.cpp`.

* C `int` values are `Int`; the arithmetic of the program (`width * length`,
  `count++`, `i++`) is taken inside the range of `int`, where it is exact.
* A C array `int a[n]` is a `List Int` of length `n`; reading or writing outside
  it is undefined behaviour and is a `Fault` of the embedding.
* Loops are recursive functions over the loop state.  The `for` loops over
  `i < data_size` take a bound `fuel` on the number of times the loop condition
  is tested; running out of it is the fault `Fault.outOfFuel`, and the theorems
  show that `data_size + 1` tests always suffice.
* The OpenCL runtime is not part of the sources.  Its calls are recorded as
  `Event`s; what the runtime answers (the devices found, the error code of
  each programming attempt, what the device leaves in the output buffer) is
  read from a `World`.  `OCL_CHECK` comes from `xcl2.hpp`, which is not among
  the sources: the embedding executes the wrapped call and covers the runs in
  which the wrapped call reports no error.
-/

set_option linter.unusedVariables false

namespace Host

/-! ## Memory -/

/-- Ways in which a run leaves the defined behaviour of the embedding. -/
inductive Fault where
  | outOfBounds (index size : Nat)
  | negativeSize (n : Int)
  | outOfFuel
  deriving DecidableEq

deriving instance DecidableEq for Except

/-- Read `a[i]`. -/
def load (a : List Int) (i : Nat) : Except Fault Int :=
  match a[i]? with
  | some v => .ok v
  | none => .error (.outOfBounds i a.length)

/-- Write `a[i] = v`. -/
def store (a : List Int) (i : Nat) (v : Int) : Except Fault (List Int) :=
  if i < a.length then .ok (a.set i v) else .error (.outOfBounds i a.length)

/-- Declaration `int a[n];` of a local array: `n` cells whose contents are
indeterminate (`junk` gives the value found in each cell). -/
def alloc (junk : Nat → Int) (n : Int) : Except Fault (List Int) :=
  if n < 0 then .error (.negativeSize n) else .ok ((List.range n.toNat).map junk)

/-! ## Reference computation -/

/-- Function `thresholding`, lines 16-22. -/
def thresholding (value maximum threshold : Int) : Int :=
  if value > threshold then 1 else 0

/-- Serial approach, lines 194-196:
`for (int i = 0; i < data_size; i++) out_data_serial[i] = thresholding(data[i], maximum, 90);`
run from loop index `i`. -/
def serialLoop (data : List Int) (maximum data_size : Int) :
    Nat → Nat → List Int → Except Fault (List Int)
  | 0, _, _ => .error .outOfFuel
  | fuel + 1, i, out_data_serial =>
    if (i : Int) < data_size then
      match load data i with
      | .error f => .error f
      | .ok v =>
        match store out_data_serial i (thresholding v maximum 90) with
        | .error f => .error f
        | .ok out => serialLoop data maximum data_size fuel (i + 1) out
    else .ok out_data_serial

/-! ## Sample reading -/

/-- Sample reading loop, lines 72-77:
`while (inf >> num) { data[count] = num; count++; }`.
The first argument holds the integers that follow the header in the input file,
in file order; the loop ends when the extraction `inf >> num` fails, that is
when they are used up.  The result is the array and the final `count`. -/
def readLoop : List Int → Nat → List Int → Except Fault (List Int × Nat)
  | [], count, data => .ok (data, count)
  | num :: rest, count, data =>
    match store data count num with
    | .error f => .error f
    | .ok data => readLoop rest (count + 1) data

/-! ## Output streams -/

/-- One operand of `<<` on an output stream. -/
inductive Item where
  | str (s : String)
  | int (n : Int)
  | endl
  deriving DecidableEq

/-- Characters an operand puts on the stream. -/
def Item.text : Item → String
  | .str s => s
  | .int n => toString n
  | .endl => "\n"

/-- Text of a sequence of operands. -/
def render (items : List Item) : String :=
  String.join (items.map Item.text)

/-- Split what was written on a stream at every `std::endl`. -/
def linesOf : List Item → List (List Item)
  | [] => [[]]
  | .endl :: rest => [] :: linesOf rest
  | x :: rest =>
    match linesOf rest with
    | [] => [[x]]
    | l :: ls => (x :: l) :: ls

/-- Lines 185-187 and 215-217:
`for (int i = 0; i < data_size; i++) outf << out_data[i] << " ";`
run from loop index `i` on the stream contents `outf`. -/
def writeSamples (out_data : List Int) (data_size : Int) :
    Nat → Nat → List Item → Except Fault (List Item)
  | 0, _, _ => .error .outOfFuel
  | fuel + 1, i, outf =>
    if (i : Int) < data_size then
      match load out_data i with
      | .error f => .error f
      | .ok v => writeSamples out_data data_size fuel (i + 1) (outf ++ [.int v, .str " "])
    else .ok outf

/-- Lines 178-188 and 208-218: the metadata lines, then the samples. -/
def writeImage (file_type comments : String) (width length : Int) (out_data : List Int)
    (data_size : Int) (fuel : Nat) : Except Fault (List Item) :=
  writeSamples out_data data_size fuel 0
    [.str file_type, .endl, .str comments, .endl,
     .int width, .str " ", .int length, .endl, .int 1, .endl]

/-! ## Comparison -/

/-- State of the comparison loop: the loop index `i`, the flag `match` and the
indices whose two entries have been read so far, in the order of reading. -/
structure CompareState where
  i : Nat
  match_ : Int
  examined : List Nat
  deriving DecidableEq

/-- Comparison loop, lines 221-226:
`for (int i = 0; i < data_size; i++) if (out_data_serial[i] != out_data_parallel[i]) { match = 1; break; }`.
The result is the state in which the loop is left. -/
def compareLoop (out_data_serial out_data_parallel : List Int) (data_size : Int) :
    Nat → CompareState → Except Fault CompareState
  | 0, _ => .error .outOfFuel
  | fuel + 1, s =>
    if (s.i : Int) < data_size then
      match load out_data_serial s.i with
      | .error f => .error f
      | .ok x =>
        match load out_data_parallel s.i with
        | .error f => .error f
        | .ok y =>
          if x ≠ y then
            .ok { i := s.i, match_ := 1, examined := s.examined ++ [s.i] }
          else
            compareLoop out_data_serial out_data_parallel data_size fuel
              { i := s.i + 1, match_ := s.match_, examined := s.examined ++ [s.i] }
    else .ok s

/-- Lines 220-226: `int match = 0;` followed by the comparison loop.  The loop
index is declared by the `for` statement, so `match` is the only variable of the
loop that exists after it. -/
def compare (out_data_serial out_data_parallel : List Int) (data_size : Int) (fuel : Nat) :
    Except Fault Int :=
  match compareLoop out_data_serial out_data_parallel data_size fuel
      { i := 0, match_ := 0, examined := [] } with
  | .error f => .error f
  | .ok s => .ok s.match_

/-- Value of `EXIT_SUCCESS` (`<cstdlib>`). -/
def EXIT_SUCCESS : Int := 0

/-- Value of `EXIT_FAILURE` (`<cstdlib>`). -/
def EXIT_FAILURE : Int := 1

/-- Line 228: `std::cout << "TEST " << (match ? "FAILED" : "PASSED") << std::endl;`. -/
def verdictLine (match_ : Int) : List Item :=
  [.str "TEST ", .str (if match_ ≠ 0 then "FAILED" else "PASSED"), .endl]

/-- Line 229: `return (match ? EXIT_FAILURE : EXIT_SUCCESS);`. -/
def exitStatus (match_ : Int) : Int :=
  if match_ ≠ 0 then EXIT_FAILURE else EXIT_SUCCESS

/-- Lines 220-229: the comparison, the line printed and the exit status. -/
def compareAndExit (out_data_serial out_data_parallel : List Int) (data_size : Int)
    (fuel : Nat) : Except Fault (List Item × Int) :=
  match compare out_data_serial out_data_parallel data_size fuel with
  | .error f => .error f
  | .ok match_ => .ok (verdictLine match_, exitStatus match_)

/-! ## Devices -/

/-- Value of `CL_SUCCESS` (OpenCL headers). -/
def CL_SUCCESS : Int := 0

/-- What the runtime answers for one entry of `xcl::get_xil_devices()`: the
device name, and the error code that constructing `cl::Program` for this device
from the loaded binary leaves in `err` (line 102). -/
structure Device where
  name : String
  programErr : Int
  deriving DecidableEq

/-- Argument of `setArg`. -/
inductive Arg where
  | buffer (name : String)
  | scalar (v : Int)
  deriving DecidableEq

/-- Observable actions of a run.  Contexts, queues and kernels are identified by
the index of the device they were created for (`none`: the default-constructed
object of lines 36-38). -/
inductive Event where
  | cout (line : List Item)
  | cerr (line : List Item)
  | newContext (device : Nat)
  | newQueue (context : Option Nat) (device : Nat)
  | newProgram (context : Option Nat) (device : Nat)
  | newKernel (program : Nat) (entry : String)
  | newBuffer (context : Option Nat) (name : String) (size_in_bytes : Nat)
  | setArg (kernel : Option Nat) (index : Int) (arg : Arg)
  | migrate (q : Option Nat) (buffer : String) (toHost : Bool)
  | enqueueTask (q : Option Nat) (kernel : Option Nat)
  | finish (q : Option Nat)
  | fileWritten (name : String) (content : List Item)
  deriving DecidableEq

/-- The variables `context`, `q`, `krnl_threshold` (lines 36-38) and
`valid_device` (line 91). -/
structure Handles where
  context : Option Nat
  q : Option Nat
  krnl_threshold : Option Nat
  valid_device : Int
  deriving DecidableEq

/-- The handles before the device loop. -/
def Handles.initial : Handles :=
  { context := none, q := none, krnl_threshold := none, valid_device := 0 }

/-- Device loop, lines 92-116, run on the devices from index `i` on (the first
argument is `devices` without its first `i` entries).  The result is the
handles after the loop and the actions of the loop. -/
def programLoop : List Device → Nat → Handles → Handles × List Event
  | [], _, h => (h, [])
  | device :: rest, i, h =>
    let h1 : Handles := { h with context := some i }
    let h2 : Handles := { h1 with q := some i }
    let tried : List Event :=
      [.newContext i, .newQueue h1.context i,
       .cout [.str "Trying to program device[", .int i, .str "]: ", .str device.name, .endl],
       .newProgram h2.context i]
    if device.programErr ≠ CL_SUCCESS then
      let r := programLoop rest (i + 1) h2
      (r.1, tried ++
        [.cout [.str "Failed to program device[", .int i, .str "] with xclbin file!\n"]] ++ r.2)
    else
      ({ h2 with krnl_threshold := some i, valid_device := h2.valid_device + 1 },
        tried ++ [.cout [.str "Device[", .int i, .str "]: program successful!\n"],
          .newKernel i "threshold"])

/-- Lines 126-165: buffer allocation, argument binding, migration in, dispatch,
migration out and synchronisation. -/
def pipeline (h : Handles) (size_in_bytes : Nat) (data_size : Int) : List Event :=
  [.newBuffer h.context "buffer_a" size_in_bytes,
   .newBuffer h.context "buffer_result" size_in_bytes,
   .setArg h.krnl_threshold 0 (.buffer "buffer_result"),
   .setArg h.krnl_threshold 1 (.buffer "buffer_a"),
   .setArg h.krnl_threshold 2 (.scalar data_size),
   .migrate h.q "buffer_a" false,
   .enqueueTask h.q h.krnl_threshold,
   .migrate h.q "buffer_result" true,
   .finish h.q]

/-! ## The whole run -/

/-- Everything a run reads from outside the program. -/
structure World where
  argc : Int
  argv0 : String
  inputOpens : Bool
  file_type : String
  comments : String
  width : Int
  length : Int
  maximum : Int
  nums : List Int
  junkData : Nat → Int
  junkSerial : Nat → Int
  junkParallel : Nat → Int
  devices : List Device
  kernel : List Int → List Int → Int → Nat → Int
  parallelOpens : Bool
  serialOpens : Bool

/-- Actions and exit status of a run that ends. -/
structure Run where
  events : List Event
  status : Int
  deriving DecidableEq

/-- Contents of `out_data_parallel` once `q.finish()` has returned: the device
program is a precompiled binary, so each cell holds what `World.kernel` says. -/
def deviceResult (w : World) (data out_data_parallel : List Int) (data_size : Int) : List Int :=
  (List.range out_data_parallel.length).map (w.kernel out_data_parallel data data_size)

/-- Lines 84-229 of `main`: from device discovery to the exit status. -/
def offload (w : World) (data out_data_serial out_data_parallel : List Int)
    (data_size : Int) (size_in_bytes : Nat) (fuel : Nat) : Except Fault Run :=
  let r := programLoop w.devices 0 Handles.initial
  if r.1.valid_device = 0 then
    .ok { events := r.2 ++ [.cout [.str "Failed to program any device found, exit!\n"]],
          status := EXIT_FAILURE }
  else
    let evs := r.2 ++ pipeline r.1 size_in_bytes data_size
    let out_data_parallel := deviceResult w data out_data_parallel data_size
    if w.parallelOpens = false then
      .ok { events := evs ++ [.cerr [.str "Error Opening Output File", .endl]], status := 1 }
    else
      match writeImage w.file_type w.comments w.width w.length out_data_parallel data_size fuel with
      | .error f => .error f
      | .ok parallelFile =>
        let evs := evs ++ [.fileWritten "parallel_coins.ascii.pgm" parallelFile]
        match serialLoop data w.maximum data_size fuel 0 out_data_serial with
        | .error f => .error f
        | .ok out_data_serial =>
          if w.serialOpens = false then
            .ok { events := evs ++ [.cerr [.str "Error Opening Output File", .endl]],
                  status := 1 }
          else
            match writeImage w.file_type w.comments w.width w.length out_data_serial
                data_size fuel with
            | .error f => .error f
            | .ok serialFile =>
              let evs := evs ++ [.fileWritten "serial_coins.ascii.pgm" serialFile]
              match compareAndExit out_data_serial out_data_parallel data_size fuel with
              | .error f => .error f
              | .ok (line, status) => .ok { events := evs ++ [.cout line], status := status }

/-- Function `main`, lines 25-230. -/
def main (w : World) (fuel : Nat) : Except Fault Run :=
  if w.argc ≠ 2 then
    .ok { events := [.cout [.str "Usage: ", .str w.argv0, .str " <XCLBIN File>", .endl]],
          status := EXIT_FAILURE }
  else if w.inputOpens = false then
    .ok { events := [.cerr [.str "Error Opening Input File", .endl]], status := 1 }
  else
    let data_size := w.width * w.length
    let size_in_bytes := ((data_size * 4) % 2 ^ 64).toNat
    match alloc w.junkData data_size with
    | .error f => .error f
    | .ok data =>
      match readLoop w.nums 0 data with
      | .error f => .error f
      | .ok (data, _) =>
        match alloc w.junkSerial data_size with
        | .error f => .error f
        | .ok out_data_serial =>
          match alloc w.junkParallel data_size with
          | .error f => .error f
          | .ok out_data_parallel =>
            offload w data out_data_serial out_data_parallel data_size size_in_bytes fuel

/-! ## Vocabulary of the statements -/

/-- Samples as they appear in an output file: each one followed by a blank. -/
def sampleItems : List Int → List Item
  | [] => []
  | v :: vs => .int v :: .str " " :: sampleItems vs

/-- The four metadata lines of an output file. -/
def headerItems (file_type comments : String) (width length : Int) : List Item :=
  [.str file_type, .endl, .str comments, .endl,
   .int width, .str " ", .int length, .endl, .int 1, .endl]

/-- Device for which an action creates a context, a queue, a program or a kernel. -/
def Event.createdFor : Event → Option Nat
  | .newContext d => some d
  | .newQueue _ d => some d
  | .newProgram _ d => some d
  | .newKernel d _ => some d
  | _ => none

/-- Actions that come after the establishment of a session: kernel extraction,
buffer allocation, argument binding, migration, dispatch, synchronisation, and
the writing of an output file. -/
def Event.usesSession : Event → Bool
  | .newKernel _ _ => true
  | .newBuffer _ _ _ => true
  | .setArg _ _ _ => true
  | .migrate _ _ _ => true
  | .enqueueTask _ _ => true
  | .finish _ => true
  | .fileWritten _ _ => true
  | _ => false

/-- `k` is the lowest index at which `a` and `b` differ. -/
def LowestMismatch (a b : List Int) (k : Nat) : Prop :=
  k < a.length ∧ a.getD k 0 ≠ b.getD k 0 ∧ ∀ j, j < k → a.getD j 0 = b.getD j 0

/-- Device `k` is the first one of the catalog whose programming succeeds. -/
def FirstProgrammable (devices : List Device) (k : Nat) : Prop :=
  (∃ d, devices[k]? = some d ∧ d.programErr = CL_SUCCESS) ∧
  ∀ j d, j < k → devices[j]? = some d → d.programErr ≠ CL_SUCCESS

/-! ## Sample runs -/

/-- A run on a `2x2` image with samples `50 100 150 200`, on a platform whose
third device is the first that can be programmed and whose device program
thresholds at 90. -/
def sampleWorld : World :=
  { argc := 2, argv0 := "host", inputOpens := true,
    file_type := "P2", comments := "# coins", width := 2, length := 2, maximum := 255,
    nums := [50, 100, 150, 200],
    junkData := fun _ => 0, junkSerial := fun _ => 7, junkParallel := fun _ => 9,
    devices := [{ name := "d0", programErr := -44 }, { name := "d1", programErr := -44 },
                { name := "d2", programErr := 0 }],
    kernel := fun _ data _ i => if data.getD i 0 > 90 then 1 else 0,
    parallelOpens := true, serialOpens := true }

/-- The same platform without the device that can be programmed. -/
def deadWorld : World :=
  { sampleWorld with
    devices := [{ name := "d0", programErr := -44 }, { name := "d1", programErr := -44 }] }

/-- The sample run in a place where `serial_coins.ascii.pgm` cannot be opened. -/
def unwritableWorld : World :=
  { sampleWorld with serialOpens := false }

/-- An input file whose header announces a `1x1` image and which holds two samples. -/
def overflowWorld : World :=
  { sampleWorld with width := 1, length := 1, nums := [5, 7] }

/-! ## Lemmas on memory -/

theorem load_ok (a : List Int) (i : Nat) (h : i < a.length) :
    load a i = .ok (a.getD i 0) := by
  simp [load, List.getElem?_eq_getElem h, List.getD_eq_getElem _ _ h]

theorem store_ok (a : List Int) (i : Nat) (v : Int) (h : i < a.length) :
    store a i v = .ok (a.set i v) := by
  simp [store, h]

theorem getD_set_self (a : List Int) (i : Nat) (v : Int) (h : i < a.length) :
    (a.set i v).getD i 0 = v := by
  simp [List.getD_eq_getElem?_getD, List.getElem?_set, h]

theorem getD_set_other (a : List Int) (i j : Nat) (v : Int) (h : i ≠ j) :
    (a.set i v).getD j 0 = a.getD j 0 := by
  simp [List.getD_eq_getElem?_getD, List.getElem?_set, h]

/-- The serial loop, started at index `i` inside the arrays, ends normally,
keeps the length of the output array, leaves the cells below `i` alone and
stores the thresholded sample in every cell from `i` on. -/
theorem serialLoop_spec (data : List Int) (maximum : Int) (n : Nat) :
    ∀ (fuel i : Nat) (out : List Int), data.length = n → out.length = n → i ≤ n →
      n - i < fuel →
      ∃ res, serialLoop data maximum (n : Int) fuel i out = .ok res ∧ res.length = n ∧
        (∀ j, j < i → res.getD j 0 = out.getD j 0) ∧
        (∀ j, i ≤ j → j < n → res.getD j 0 = thresholding (data.getD j 0) maximum 90) := by
  intro fuel
  induction fuel with
  | zero => intro i out _ _ _ h; omega
  | succ fuel ih =>
    intro i out hd ho hi hf
    by_cases hlt : i < n
    · have hc : (i : Int) < (n : Int) := by exact_mod_cast hlt
      obtain ⟨res, hres, hlen, hlow, hhigh⟩ :=
        ih (i + 1) (out.set i (thresholding (data.getD i 0) maximum 90)) hd
          (by simp [ho]) (by omega) (by omega)
      refine ⟨res, ?_, hlen, ?_, ?_⟩
      · simp only [serialLoop, if_pos hc, load_ok data i (by omega),
          store_ok out i _ (show i < out.length by omega)]
        exact hres
      · intro j hj
        rw [hlow j (by omega), getD_set_other out i j _ (by omega)]
      · intro j hij hjn
        by_cases hji : j = i
        · subst hji
          rw [hlow j (by omega), getD_set_self out j _ (by omega)]
        · exact hhigh j (by omega) hjn
    · have hc : ¬ ((i : Int) < (n : Int)) := by exact_mod_cast hlt
      refine ⟨out, ?_, ho, fun j _ => rfl, fun j h1 h2 => by omega⟩
      rw [serialLoop, if_neg hc]

/-- The serial loop over the whole array computes `thresholding · maximum 90`
of every sample. -/
theorem serialLoop_eq_map (data out : List Int) (maximum : Int) (n fuel : Nat)
    (hd : data.length = n) (ho : out.length = n) (hf : n < fuel) :
    serialLoop data maximum (n : Int) fuel 0 out =
      .ok (data.map fun v => thresholding v maximum 90) := by
  obtain ⟨res, hres, hlen, _, hhigh⟩ :=
    serialLoop_spec data maximum n fuel 0 out hd ho (Nat.zero_le n) (by omega)
  rw [hres]
  congr 1
  apply List.ext_getElem (by simp [hlen, hd])
  intro j h1 h2
  have h := hhigh j (Nat.zero_le j) (by omega)
  rw [List.getD_eq_getElem _ _ h1, List.getD_eq_getElem _ _ (by omega)] at h
  simp [h]

/-! ## Lemmas on the output files -/

theorem sampleItems_append (xs ys : List Int) :
    sampleItems (xs ++ ys) = sampleItems xs ++ sampleItems ys := by
  induction xs with
  | nil => rfl
  | cons x xs ih => simp [sampleItems, ih]

theorem sampleItems_length (xs : List Int) : (sampleItems xs).length = 2 * xs.length := by
  induction xs with
  | nil => rfl
  | cons x xs ih => simp [sampleItems, ih]; omega

theorem linesOf_sampleItems (xs : List Int) : linesOf (sampleItems xs) = [sampleItems xs] := by
  induction xs with
  | nil => rfl
  | cons x xs ih => simp [sampleItems, linesOf, ih]

/-- The sample loop, started at index `i`, appends the samples from `i` on. -/
theorem writeSamples_spec (out_data : List Int) (n : Nat) (hn : out_data.length = n) :
    ∀ (fuel i : Nat) (outf : List Item), i ≤ n → n - i < fuel →
      writeSamples out_data (n : Int) fuel i outf =
        .ok (outf ++ sampleItems (out_data.drop i)) := by
  intro fuel
  induction fuel with
  | zero => intro i outf _ h; omega
  | succ fuel ih =>
    intro i outf hi hf
    by_cases hlt : i < n
    · have hc : (i : Int) < (n : Int) := by exact_mod_cast hlt
      have hdrop : out_data.drop i = out_data.getD i 0 :: out_data.drop (i + 1) := by
        rw [List.getD_eq_getElem _ _ (show i < out_data.length by omega)]
        exact List.drop_eq_getElem_cons (by omega)
      simp only [writeSamples, if_pos hc, load_ok out_data i (by omega)]
      rw [ih (i + 1) _ (by omega) (by omega), hdrop]
      simp [sampleItems]
    · have hc : ¬ ((i : Int) < (n : Int)) := by exact_mod_cast hlt
      have hdrop : out_data.drop i = [] := List.drop_eq_nil_of_le (by omega)
      rw [writeSamples, if_neg hc, hdrop]
      simp [sampleItems]

theorem writeImage_ok (file_type comments : String) (width length : Int) (out_data : List Int)
    (n fuel : Nat) (hn : out_data.length = n) (hf : n < fuel) :
    writeImage file_type comments width length out_data (n : Int) fuel =
      .ok (headerItems file_type comments width length ++ sampleItems out_data) := by
  unfold writeImage
  rw [writeSamples_spec out_data n hn fuel 0 _ (Nat.zero_le n) (by omega)]
  simp [headerItems]

theorem linesOf_image (file_type comments : String) (width length : Int) (out_data : List Int) :
    linesOf (headerItems file_type comments width length ++ sampleItems out_data) =
      [[.str file_type], [.str comments], [.int width, .str " ", .int length], [.int 1],
       sampleItems out_data] := by
  simp [headerItems, linesOf, linesOf_sampleItems]

/-! ## Lemmas on the comparison -/

/-- Started at or below the lowest mismatch `k`, the comparison loop stops at
`k` with the flag set, having read the entries from its start up to `k`. -/
theorem compareLoop_mismatch (a b : List Int) (n k : Nat) (ha : a.length = n)
    (hb : b.length = n) (hk : LowestMismatch a b k) :
    ∀ (fuel i : Nat) (m : Int) (ex : List Nat), i ≤ k → k - i < fuel →
      compareLoop a b (n : Int) fuel { i := i, match_ := m, examined := ex } =
        .ok { i := k, match_ := 1, examined := ex ++ List.range' i (k - i + 1) } := by
  obtain ⟨hkn, hne, hlow⟩ := hk
  intro fuel
  induction fuel with
  | zero => intro i m ex _ h; omega
  | succ fuel ih =>
    intro i m ex hi hf
    have hc : (i : Int) < (n : Int) := by exact_mod_cast (show i < n by omega)
    simp only [compareLoop, if_pos hc, load_ok a i (by omega), load_ok b i (by omega)]
    by_cases hik : i = k
    · subst hik
      rw [if_pos hne]
      simp
    · have heq : a.getD i 0 = b.getD i 0 := hlow i (by omega)
      have hsplit : k - i + 1 = (k - (i + 1) + 1) + 1 := by omega
      have hr : List.range' i (k - i + 1) = i :: List.range' (i + 1) (k - (i + 1) + 1) := by
        rw [hsplit]; rfl
      rw [if_neg (fun h => h heq), ih (i + 1) m (ex ++ [i]) (by omega) (by omega), hr]
      simp

/-- On arrays that agree from index `i` on, the comparison loop runs to the end
and leaves the flag as it was. -/
theorem compareLoop_equal (a b : List Int) (n : Nat) (ha : a.length = n) (hb : b.length = n) :
    ∀ (fuel i : Nat) (m : Int) (ex : List Nat), i ≤ n → n - i < fuel →
      (∀ j, i ≤ j → j < n → a.getD j 0 = b.getD j 0) →
      compareLoop a b (n : Int) fuel { i := i, match_ := m, examined := ex } =
        .ok { i := n, match_ := m, examined := ex ++ List.range' i (n - i) } := by
  intro fuel
  induction fuel with
  | zero => intro i m ex _ h; omega
  | succ fuel ih =>
    intro i m ex hi hf heq
    by_cases hlt : i < n
    · have hc : (i : Int) < (n : Int) := by exact_mod_cast hlt
      have hsplit : n - i = (n - (i + 1)) + 1 := by omega
      have hr : List.range' i (n - i) = i :: List.range' (i + 1) (n - (i + 1)) := by
        rw [hsplit]; rfl
      simp only [compareLoop, if_pos hc, load_ok a i (by omega), load_ok b i (by omega)]
      rw [if_neg (fun h => h (heq i (Nat.le_refl i) hlt)),
        ih (i + 1) m (ex ++ [i]) (by omega) (by omega) (fun j h1 h2 => heq j (by omega) h2), hr]
      simp
    · have hc : ¬ ((i : Int) < (n : Int)) := by exact_mod_cast hlt
      have hin : i = n := by omega
      rw [compareLoop, if_neg hc]
      simp [hin]

/-- Two arrays of the same length that are not equal have a lowest mismatch. -/
theorem exists_lowestMismatch (a b : List Int) (hlen : a.length = b.length) (hne : a ≠ b) :
    ∃ k, LowestMismatch a b k := by
  have hex : ∃ k, k < a.length ∧ a.getD k 0 ≠ b.getD k 0 := by
    by_contra hcon
    push_neg at hcon
    apply hne
    apply List.ext_getElem hlen
    intro j h1 h2
    have h := hcon j h1
    rwa [List.getD_eq_getElem _ _ h1, List.getD_eq_getElem _ _ h2] at h
  classical
  refine ⟨Nat.find hex, (Nat.find_spec hex).1, (Nat.find_spec hex).2, ?_⟩
  intro j hj
  by_contra hcon
  exact Nat.find_min hex hj ⟨by have := (Nat.find_spec hex).1; omega, hcon⟩

theorem compare_of_mismatch (a b : List Int) (n k fuel : Nat) (ha : a.length = n)
    (hb : b.length = n) (hk : LowestMismatch a b k) (hf : n < fuel) :
    compare a b (n : Int) fuel = .ok 1 := by
  have hkn : k < n := by have := hk.1; omega
  simp [compare, compareLoop_mismatch a b n k ha hb hk fuel 0 0 [] (Nat.zero_le k) (by omega)]

theorem compare_of_equal (a b : List Int) (n fuel : Nat) (ha : a.length = n)
    (hb : b.length = n) (heq : ∀ j, j < n → a.getD j 0 = b.getD j 0) (hf : n < fuel) :
    compare a b (n : Int) fuel = .ok 0 := by
  simp [compare, compareLoop_equal a b n ha hb fuel 0 0 [] (Nat.zero_le n) (by omega)
    (fun j _ h => heq j h)]

/-! ## Lemmas on sample reading -/

/-- When the integers still to read fit in the array, the reading loop stores
all of them and stays inside the array. -/
theorem readLoop_fits (nums : List Int) :
    ∀ (count : Nat) (data : List Int), count + nums.length ≤ data.length →
      ∃ res, readLoop nums count data = .ok (res, count + nums.length) ∧
        res.length = data.length := by
  induction nums with
  | nil => intro count data _; exact ⟨data, rfl, rfl⟩
  | cons num rest ih =>
    intro count data h
    have hlen : (num :: rest).length = rest.length + 1 := rfl
    obtain ⟨res, hres, hl⟩ := ih (count + 1) (data.set count num) (by simp; omega)
    refine ⟨res, ?_, by simpa using hl⟩
    simp only [readLoop, store_ok data count num (by omega)]
    rw [hres, hlen]
    congr 2
    omega

/-- When more integers are left than cells, the reading loop stores past the
end of the array. -/
theorem readLoop_excess (nums : List Int) :
    ∀ (count : Nat) (data : List Int), count ≤ data.length →
      data.length < count + nums.length →
      readLoop nums count data = .error (.outOfBounds data.length data.length) := by
  induction nums with
  | nil => intro count data h1 h2; simp at h2; omega
  | cons num rest ih =>
    intro count data h1 h2
    have hlen : (num :: rest).length = rest.length + 1 := rfl
    by_cases hc : count < data.length
    · simp only [readLoop, store_ok data count num hc]
      have := ih (count + 1) (data.set count num) (by simp; omega) (by simp; omega)
      simpa using this
    · have hcd : count = data.length := by omega
      simp [readLoop, store, hcd]

/-! ## Lemmas on the device loop -/

theorem programLoop_fail (device : Device) (rest : List Device) (i : Nat) (h : Handles)
    (hd : device.programErr ≠ CL_SUCCESS) :
    programLoop (device :: rest) i h =
      ((programLoop rest (i + 1) { h with context := some i, q := some i }).1,
        [.newContext i, .newQueue (some i) i,
          .cout [.str "Trying to program device[", .int i, .str "]: ", .str device.name, .endl],
          .newProgram (some i) i,
          .cout [.str "Failed to program device[", .int i, .str "] with xclbin file!\n"]] ++
        (programLoop rest (i + 1) { h with context := some i, q := some i }).2) := by
  simp [programLoop, hd]

theorem programLoop_success (device : Device) (rest : List Device) (i : Nat) (h : Handles)
    (hd : device.programErr = CL_SUCCESS) :
    programLoop (device :: rest) i h =
      ({ context := some i, q := some i, krnl_threshold := some i,
         valid_device := h.valid_device + 1 },
        [.newContext i, .newQueue (some i) i,
          .cout [.str "Trying to program device[", .int i, .str "]: ", .str device.name, .endl],
          .newProgram (some i) i,
          .cout [.str "Device[", .int i, .str "]: program successful!\n"],
          .newKernel i "threshold"]) := by
  simp [programLoop, hd]

theorem firstProgrammable_zero (device : Device) (rest : List Device)
    (hk : FirstProgrammable (device :: rest) 0) : device.programErr = CL_SUCCESS := by
  obtain ⟨⟨d, hd, hok⟩, _⟩ := hk
  simp at hd
  rw [hd]; exact hok

theorem firstProgrammable_succ (device : Device) (rest : List Device) (k : Nat)
    (hk : FirstProgrammable (device :: rest) (k + 1)) :
    device.programErr ≠ CL_SUCCESS ∧ FirstProgrammable rest k := by
  obtain ⟨⟨d, hd, hok⟩, hlow⟩ := hk
  refine ⟨hlow 0 device (Nat.succ_pos k) (by simp), ⟨d, by simpa using hd, hok⟩, ?_⟩
  intro j d' hj hd'
  exact hlow (j + 1) d' (by omega) (by simpa using hd')

/-- With first programmable device `k` among the devices still to try, the loop
ends with every handle bound to that device, and creates nothing for a device
beyond it. -/
theorem programLoop_first (devices : List Device) :
    ∀ (i : Nat) (h : Handles) (k : Nat), FirstProgrammable devices k →
      (programLoop devices i h).1 =
        { context := some (i + k), q := some (i + k), krnl_threshold := some (i + k),
          valid_device := h.valid_device + 1 } ∧
      (∀ e ∈ (programLoop devices i h).2, ∀ j, e.createdFor = some j → i ≤ j ∧ j ≤ i + k) ∧
      Event.newContext (i + k) ∈ (programLoop devices i h).2 ∧
      Event.newQueue (some (i + k)) (i + k) ∈ (programLoop devices i h).2 ∧
      Event.newProgram (some (i + k)) (i + k) ∈ (programLoop devices i h).2 ∧
      Event.newKernel (i + k) "threshold" ∈ (programLoop devices i h).2 := by
  induction devices with
  | nil =>
    intro i h k hk
    obtain ⟨⟨d, hd, _⟩, _⟩ := hk
    simp at hd
  | cons device rest ih =>
    intro i h k hk
    cases k with
    | zero =>
      rw [programLoop_success device rest i h (firstProgrammable_zero device rest hk)]
      refine ⟨rfl, ?_, by simp, by simp, by simp, by simp⟩
      intro e he j hj
      simp only [List.mem_cons, List.mem_singleton, List.not_mem_nil, or_false] at he
      rcases he with he | he | he | he | he | he <;> subst he <;>
        simp [Event.createdFor] at hj <;> omega
    | succ k =>
      obtain ⟨hfail, hrest⟩ := firstProgrammable_succ device rest k hk
      rw [programLoop_fail device rest i h hfail]
      obtain ⟨h1, h2, h3, h4, h5, h6⟩ :=
        ih (i + 1) { h with context := some i, q := some i } k hrest
      have hik : i + 1 + k = i + (k + 1) := by omega
      rw [hik] at h1 h2 h3 h4 h5 h6
      refine ⟨h1, ?_, ?_, ?_, ?_, ?_⟩
      · intro e he j hj
        rw [List.mem_append] at he
        rcases he with he | he
        · simp only [List.mem_cons, List.mem_singleton, List.not_mem_nil, or_false] at he
          rcases he with he | he | he | he | he <;> subst he <;>
            simp [Event.createdFor] at hj <;> omega
        · have := h2 e he j hj
          omega
      · exact List.mem_append_right _ h3
      · exact List.mem_append_right _ h4
      · exact List.mem_append_right _ h5
      · exact List.mem_append_right _ h6

/-- When no device can be programmed the loop leaves `valid_device` and the
kernel handle alone and performs no action that needs a session. -/
theorem programLoop_all_fail (devices : List Device) :
    ∀ (i : Nat) (h : Handles), (∀ d ∈ devices, d.programErr ≠ CL_SUCCESS) →
      (programLoop devices i h).1.valid_device = h.valid_device ∧
      (programLoop devices i h).1.krnl_threshold = h.krnl_threshold ∧
      ∀ e ∈ (programLoop devices i h).2, e.usesSession = false := by
  induction devices with
  | nil => intro i h _; simp [programLoop]
  | cons device rest ih =>
    intro i h hall
    rw [programLoop_fail device rest i h (hall device (List.mem_cons_self _ _))]
    obtain ⟨h1, h2, h3⟩ := ih (i + 1) { h with context := some i, q := some i }
      (fun d hd => hall d (List.mem_cons_of_mem _ hd))
    refine ⟨h1, h2, ?_⟩
    intro e he
    rw [List.mem_append] at he
    rcases he with he | he
    · simp only [List.mem_cons, List.mem_singleton, List.not_mem_nil, or_false] at he
      rcases he with he | he | he | he | he <;> subst he <;> rfl
    · exact h3 e he

/-- Every catalog either has a first programmable device or none at all. -/
theorem firstProgrammable_or_all_fail (devices : List Device) :
    (∃ k, FirstProgrammable devices k) ∨ ∀ d ∈ devices, d.programErr ≠ CL_SUCCESS := by
  induction devices with
  | nil => right; simp
  | cons device rest ih =>
    by_cases hd : device.programErr = CL_SUCCESS
    · left
      exact ⟨0, ⟨device, by simp, hd⟩, fun j d hj _ => absurd hj (Nat.not_lt_zero j)⟩
    · rcases ih with ⟨k, ⟨d, hk, hok⟩, hlow⟩ | hall
      · left
        refine ⟨k + 1, ⟨d, by simpa using hk, hok⟩, ?_⟩
        intro j d' hj hd'
        cases j with
        | zero =>
          simp at hd'
          rw [← hd']; exact hd
        | succ j => exact hlow j d' (by omega) (by simpa using hd')
      · right
        intro d hmem
        rcases List.mem_cons.mp hmem with h | h
        · rw [h]; exact hd
        · exact hall d h

/-- With a programmable device in the catalog the loop leaves `valid_device` at 1. -/
theorem valid_device_of_programmable (devices : List Device)
    (hsome : ∃ d ∈ devices, d.programErr = CL_SUCCESS) :
    (programLoop devices 0 Handles.initial).1.valid_device ≠ 0 := by
  rcases firstProgrammable_or_all_fail devices with ⟨k, hk⟩ | hall
  · rw [(programLoop_first devices 0 Handles.initial k hk).1]
    exact (by decide : Handles.initial.valid_device + 1 ≠ 0)
  · obtain ⟨d, hd, hok⟩ := hsome
    exact absurd hok (hall d hd)

/-! ## Lemmas on the whole run -/

theorem deviceResult_length (w : World) (data out_data_parallel : List Int) (data_size : Int) :
    (deviceResult w data out_data_parallel data_size).length = out_data_parallel.length := by
  simp [deviceResult]

/-- A run in which a device is programmed and both output files open goes
through every stage: the device loop, the pipeline, the two files, and the
verdict of the comparison. -/
theorem offload_ok (w : World) (data out_data_serial out_data_parallel : List Int)
    (n size_in_bytes fuel : Nat) (hd : data.length = n) (hs : out_data_serial.length = n)
    (hp : out_data_parallel.length = n) (hf : n < fuel)
    (hv : (programLoop w.devices 0 Handles.initial).1.valid_device ≠ 0)
    (ho1 : w.parallelOpens = true) (ho2 : w.serialOpens = true) :
    ∃ m, compare (data.map fun v => thresholding v w.maximum 90)
        (deviceResult w data out_data_parallel n) n fuel = .ok m ∧
      offload w data out_data_serial out_data_parallel n size_in_bytes fuel =
        .ok { events := (programLoop w.devices 0 Handles.initial).2 ++
                pipeline (programLoop w.devices 0 Handles.initial).1 size_in_bytes n ++
                [.fileWritten "parallel_coins.ascii.pgm"
                  (headerItems w.file_type w.comments w.width w.length ++
                    sampleItems (deviceResult w data out_data_parallel n))] ++
                [.fileWritten "serial_coins.ascii.pgm"
                  (headerItems w.file_type w.comments w.width w.length ++
                    sampleItems (data.map fun v => thresholding v w.maximum 90))] ++
                [.cout (verdictLine m)],
              status := exitStatus m } := by
  have hS : (data.map fun v => thresholding v w.maximum 90).length = n := by simp [hd]
  have hP : (deviceResult w data out_data_parallel n).length = n := by
    rw [deviceResult_length, hp]
  have hm : ∃ m, compare (data.map fun v => thresholding v w.maximum 90)
      (deviceResult w data out_data_parallel n) n fuel = .ok m := by
    by_cases heq : (data.map fun v => thresholding v w.maximum 90) =
        deviceResult w data out_data_parallel n
    · exact ⟨0, compare_of_equal _ _ n fuel hS hP (fun j _ => by rw [heq]) hf⟩
    · obtain ⟨k, hk⟩ := exists_lowestMismatch _ _ (by rw [hS, hP]) heq
      exact ⟨1, compare_of_mismatch _ _ n k fuel hS hP hk hf⟩
  obtain ⟨m, hm⟩ := hm
  refine ⟨m, hm, ?_⟩
  simp only [offload, if_neg hv, ho1, ho2, Bool.true_eq_false, if_false,
    writeImage_ok _ _ _ _ _ n fuel hP hf, serialLoop_eq_map data out_data_serial _ n fuel hd hs hf,
    writeImage_ok _ _ _ _ _ n fuel hS hf, compareAndExit, hm]

/-! ## Reference computation: C1, C2 -/

/-- C1: the serial reference pass stores, for every index `i` below `data_size`,
1 in `out_data_serial[i]` if `data[i] > 90` and 0 otherwise; `thresholding`
returns 1 exactly when `value > threshold` and 0 otherwise, whatever `maximum`
is; samples `[50, 100, 150, 200]` give `[0, 1, 1, 1]`. -/
theorem serial_pass_thresholds_each_sample (data out_data_serial : List Int)
    (maximum data_size : Int) (fuel : Nat)
    (hdata : (data.length : Int) = data_size)
    (hout : (out_data_serial.length : Int) = data_size)
    (hfuel : data_size.toNat < fuel) :
    (∃ res, serialLoop data maximum data_size fuel 0 out_data_serial = .ok res ∧
      res.length = data.length ∧
      ∀ i, i < data.length → res.getD i 0 = if data.getD i 0 > 90 then 1 else 0) ∧
    (∀ value maximum threshold : Int,
      (value > threshold → thresholding value maximum threshold = 1) ∧
      (¬ value > threshold → thresholding value maximum threshold = 0)) ∧
    (∀ out : List Int, out.length = 4 →
      serialLoop [50, 100, 150, 200] maximum 4 5 0 out = .ok [0, 1, 1, 1]) := by
  subst hdata
  have ho : out_data_serial.length = data.length := by exact_mod_cast hout
  have hf : data.length < fuel := by simpa using hfuel
  refine ⟨⟨_, serialLoop_eq_map data out_data_serial maximum data.length fuel rfl ho hf,
    by simp, ?_⟩, ?_, ?_⟩
  · intro i hi
    rw [List.getD_eq_getElem _ _ (by simpa using hi), List.getD_eq_getElem _ _ hi]
    simp [thresholding]
  · intro value maximum threshold
    constructor <;> intro h <;> simp [thresholding, h]
  · intro out hlen
    have h := serialLoop_eq_map [50, 100, 150, 200] out maximum 4 5 rfl hlen (by decide)
    simpa [thresholding] using h

/-- C2: on a valid image (`width * length ≥ 1`, every sample in `[0, maximum]`)
the reference computation ends with an output of the length of the input,
`width * length` entries, each of which is 0 or 1. -/
theorem reference_output_same_length_and_binary (width length maximum : Int)
    (data out_data_serial : List Int) (fuel : Nat)
    (hsize : 1 ≤ width * length)
    (hdata : (data.length : Int) = width * length)
    (hrange : ∀ x ∈ data, 0 ≤ x ∧ x ≤ maximum)
    (hout : (out_data_serial.length : Int) = width * length)
    (hfuel : (width * length).toNat < fuel) :
    ∃ res, serialLoop data maximum (width * length) fuel 0 out_data_serial = .ok res ∧
      res.length = data.length ∧ (res.length : Int) = width * length ∧
      ∀ x ∈ res, x = 0 ∨ x = 1 := by
  rw [← hdata] at hout hfuel ⊢
  have ho : out_data_serial.length = data.length := by exact_mod_cast hout
  have hf : data.length < fuel := by simpa using hfuel
  refine ⟨_, serialLoop_eq_map data out_data_serial maximum data.length fuel rfl ho hf,
    by simp, by simp, ?_⟩
  intro x hx
  obtain ⟨v, _, hv⟩ := List.mem_map.mp hx
  rw [← hv]
  unfold thresholding
  split <;> simp

/-! ## Comparison: C3, C4 -/

/-- C3, as the code has it: on arrays of length `data_size` that differ the
comparison loop stops at the lowest index `k` with `a[k] != b[k]`, having read
the entries `0, ..., k` and no other, and sets `match` to 1; the flag is all the
comparison hands on. -/
theorem compare_stops_at_lowest_mismatch (a b : List Int) (data_size : Int) (fuel : Nat)
    (ha : (a.length : Int) = data_size) (hb : (b.length : Int) = data_size)
    (hne : a ≠ b) (hfuel : data_size.toNat < fuel) :
    ∃ k, LowestMismatch a b k ∧
      compareLoop a b data_size fuel { i := 0, match_ := 0, examined := [] } =
        .ok { i := k, match_ := 1, examined := List.range (k + 1) } ∧
      compare a b data_size fuel = .ok 1 := by
  subst ha
  have hb' : b.length = a.length := by exact_mod_cast hb
  have hf : a.length < fuel := by simpa using hfuel
  obtain ⟨k, hk⟩ := exists_lowestMismatch a b hb'.symm hne
  have hkn : k < a.length := hk.1
  refine ⟨k, hk, ?_, compare_of_mismatch a b a.length k fuel rfl hb' hk hf⟩
  rw [compareLoop_mismatch a b a.length k rfl hb' hk fuel 0 0 [] (Nat.zero_le k) (by omega)]
  simp [List.range_eq_range']

/-- C4: comparing a sequence with itself, the empty one included, leaves the
flag `match` at 0. -/
theorem compare_with_itself_matches (a : List Int) (fuel : Nat) (hfuel : a.length < fuel) :
    compare a a (a.length : Int) fuel = .ok 0 ∧
    ∃ s, compareLoop a a (a.length : Int) fuel { i := 0, match_ := 0, examined := [] } = .ok s ∧
      s.match_ = 0 := by
  refine ⟨compare_of_equal a a a.length fuel rfl rfl (fun _ _ => rfl) hfuel, _,
    compareLoop_equal a a a.length rfl rfl fuel 0 0 [] (Nat.zero_le _) (by omega)
      (fun _ _ _ => rfl), rfl⟩

/-- Lines 220-229 on two arrays of length `data_size`: the line is "TEST PASSED"
and the status 0 exactly when the arrays agree below `data_size`; otherwise the
line is "TEST FAILED" and the status `EXIT_FAILURE`. -/
theorem compareAndExit_verdict (out_data_serial out_data_parallel : List Int)
    (data_size : Int) (fuel : Nat)
    (hs : (out_data_serial.length : Int) = data_size)
    (hp : (out_data_parallel.length : Int) = data_size)
    (hfuel : data_size.toNat < fuel) :
    ∃ line status,
      compareAndExit out_data_serial out_data_parallel data_size fuel = .ok (line, status) ∧
      ((status = 0 ∧ render line = "TEST PASSED\n") ↔
        ∀ i : Nat, (i : Int) < data_size →
          out_data_serial.getD i 0 = out_data_parallel.getD i 0) ∧
      ((∃ i : Nat, (i : Int) < data_size ∧
          out_data_serial.getD i 0 ≠ out_data_parallel.getD i 0) →
        status ≠ 0 ∧ status = EXIT_FAILURE ∧ render line = "TEST FAILED\n") := by
  subst hs
  have hp' : out_data_parallel.length = out_data_serial.length := by exact_mod_cast hp
  have hf : out_data_serial.length < fuel := by simpa using hfuel
  by_cases heq : ∀ i, i < out_data_serial.length →
      out_data_serial.getD i 0 = out_data_parallel.getD i 0
  · refine ⟨verdictLine 0, exitStatus 0, ?_, ?_, ?_⟩
    · simp [compareAndExit, compare_of_equal _ _ _ fuel rfl hp' heq hf]
    · constructor
      · intro _ i hi
        exact heq i (by exact_mod_cast hi)
      · intro _
        exact ⟨rfl, rfl⟩
    · rintro ⟨i, hi, hne⟩
      exact absurd (heq i (by exact_mod_cast hi)) hne
  · have hne : out_data_serial ≠ out_data_parallel := by
      intro h
      exact heq (fun i _ => by rw [h])
    obtain ⟨k, hk⟩ := exists_lowestMismatch _ _ hp'.symm hne
    refine ⟨verdictLine 1, exitStatus 1, ?_, ?_, ?_⟩
    · simp [compareAndExit, compare_of_mismatch _ _ _ k fuel rfl hp' hk hf]
    · constructor
      · rintro ⟨h, _⟩
        exact absurd h (by decide)
      · intro h
        exact absurd (fun i hi => h i (by exact_mod_cast hi)) heq
    · intro _
      exact ⟨by decide, rfl, rfl⟩

/-- C3 as stated fails: the comparison hands on the flag `match` and not an
index.  Arrays whose lowest mismatch is at index 2 and arrays whose lowest
mismatch is at index 0 give the same result 1, so no reading of the result
recovers the index. -/
theorem compare_result_hides_the_index :
    LowestMismatch [0, 0, 1] [0, 0, 0] 2 ∧ compare [0, 0, 1] [0, 0, 0] 3 4 = .ok 1 ∧
    LowestMismatch [1, 0, 0] [0, 0, 0] 0 ∧ compare [1, 0, 0] [0, 0, 0] 3 4 = .ok 1 ∧
    compareAndExit [0, 0, 1] [0, 0, 0] 3 4 = compareAndExit [1, 0, 0] [0, 0, 0] 3 4 ∧
    ¬ ∃ report : Int → Nat, ∀ (a b : List Int) (k : Nat), a.length = b.length →
        LowestMismatch a b k →
        ∃ m, compare a b (a.length : Int) (a.length + 1) = .ok m ∧ report m = k := by
  have h2 : LowestMismatch [0, 0, 1] [0, 0, 0] 2 := by
    unfold LowestMismatch; decide
  have h0 : LowestMismatch [1, 0, 0] [0, 0, 0] 0 := by
    unfold LowestMismatch; decide
  refine ⟨h2, by decide, h0, by decide, by decide, ?_⟩
  rintro ⟨report, hrep⟩
  obtain ⟨m, hm, hr⟩ := hrep [0, 0, 1] [0, 0, 0] 2 rfl h2
  obtain ⟨m', hm', hr'⟩ := hrep [1, 0, 0] [0, 0, 0] 0 rfl h0
  have e : m = 1 := by
    have h : compare [0, 0, 1] [0, 0, 0] 3 4 = .ok 1 := by decide
    exact Except.ok.inj (hm.symm.trans h)
  have e' : m' = 1 := by
    have h : compare [1, 0, 0] [0, 0, 0] 3 4 = .ok 1 := by decide
    exact Except.ok.inj (hm'.symm.trans h)
  rw [e] at hr
  rw [e'] at hr'
  omega

/-! ## Establishment of the session: C6, C7, C9 -/

/-- C6: when some device of the catalog can be programmed, the device loop
selects the one with the lowest index among those (context, queue and kernel
belong to it, `valid_device` is 1), and creates no context, queue, program or
kernel for a device with a higher index. -/
theorem first_programmable_device_wins (devices : List Device)
    (hsome : ∃ d ∈ devices, d.programErr = CL_SUCCESS) :
    ∃ k, FirstProgrammable devices k ∧
      (programLoop devices 0 Handles.initial).1 =
        { context := some k, q := some k, krnl_threshold := some k, valid_device := 1 } ∧
      Event.newKernel k "threshold" ∈ (programLoop devices 0 Handles.initial).2 ∧
      ∀ e ∈ (programLoop devices 0 Handles.initial).2, ∀ j,
        e.createdFor = some j → j ≤ k := by
  rcases firstProgrammable_or_all_fail devices with ⟨k, hk⟩ | hall
  · obtain ⟨h1, h2, _, _, _, h6⟩ := programLoop_first devices 0 Handles.initial k hk
    rw [Nat.zero_add] at h1 h6
    refine ⟨k, hk, ?_, h6, ?_⟩
    · rw [h1]; rfl
    · intro e he j hj
      have := (h2 e he j hj).2
      omega
  · obtain ⟨d, hd, hok⟩ := hsome
    exact absurd hok (hall d hd)

/-- C7: when programming fails for every device of the catalog, the empty
catalog included, the run ends right after the device loop with the status
`EXIT_FAILURE`, which is not 0: no kernel is extracted, and no buffer
allocation, argument binding, migration or dispatch takes place. -/
theorem no_programmable_device_is_fatal (w : World)
    (data out_data_serial out_data_parallel : List Int) (data_size : Int)
    (size_in_bytes fuel : Nat)
    (hall : ∀ d ∈ w.devices, d.programErr ≠ CL_SUCCESS) :
    ∃ run, offload w data out_data_serial out_data_parallel data_size size_in_bytes fuel =
        .ok run ∧
      run.events = (programLoop w.devices 0 Handles.initial).2 ++
        [.cout [.str "Failed to program any device found, exit!\n"]] ∧
      run.status = EXIT_FAILURE ∧ run.status ≠ 0 ∧
      (programLoop w.devices 0 Handles.initial).1.krnl_threshold = none ∧
      ∀ e ∈ run.events, e.usesSession = false := by
  obtain ⟨h1, h2, h3⟩ := programLoop_all_fail w.devices 0 Handles.initial hall
  have hv : (programLoop w.devices 0 Handles.initial).1.valid_device = 0 := h1
  refine ⟨{ events := (programLoop w.devices 0 Handles.initial).2 ++
      [.cout [.str "Failed to program any device found, exit!\n"]], status := EXIT_FAILURE },
    by simp only [offload, if_pos hv], rfl, rfl, (by decide : EXIT_FAILURE ≠ 0), h2, ?_⟩
  intro e he
  rw [List.mem_append] at he
  rcases he with he | he
  · exact h3 e he
  · rw [List.mem_singleton] at he
    subst he
    rfl

/-- C9: in a run that gets past the establishment stage (`valid_device` is not
0 after the device loop), the context, the queue and the kernel were created for
one and the same device `k`, whose programming succeeded and from whose program
the entry point "threshold" was extracted; every stage of the pipeline works on
the handles of that device. -/
theorem session_is_whole (devices : List Device)
    (hpast : (programLoop devices 0 Handles.initial).1.valid_device ≠ 0) :
    ∃ k d, devices[k]? = some d ∧ d.programErr = CL_SUCCESS ∧
      (programLoop devices 0 Handles.initial).1 =
        { context := some k, q := some k, krnl_threshold := some k, valid_device := 1 } ∧
      Event.newContext k ∈ (programLoop devices 0 Handles.initial).2 ∧
      Event.newQueue (some k) k ∈ (programLoop devices 0 Handles.initial).2 ∧
      Event.newProgram (some k) k ∈ (programLoop devices 0 Handles.initial).2 ∧
      Event.newKernel k "threshold" ∈ (programLoop devices 0 Handles.initial).2 ∧
      ∀ (size_in_bytes : Nat) (data_size : Int),
        pipeline (programLoop devices 0 Handles.initial).1 size_in_bytes data_size =
          [.newBuffer (some k) "buffer_a" size_in_bytes,
           .newBuffer (some k) "buffer_result" size_in_bytes,
           .setArg (some k) 0 (.buffer "buffer_result"),
           .setArg (some k) 1 (.buffer "buffer_a"),
           .setArg (some k) 2 (.scalar data_size),
           .migrate (some k) "buffer_a" false,
           .enqueueTask (some k) (some k),
           .migrate (some k) "buffer_result" true,
           .finish (some k)] := by
  rcases firstProgrammable_or_all_fail devices with ⟨k, hk⟩ | hall
  · obtain ⟨h1, _, h3, h4, h5, h6⟩ := programLoop_first devices 0 Handles.initial k hk
    rw [Nat.zero_add] at h1 h3 h4 h5 h6
    obtain ⟨⟨d, hd, hok⟩, _⟩ := hk
    have h1' : (programLoop devices 0 Handles.initial).1 =
        { context := some k, q := some k, krnl_threshold := some k, valid_device := 1 } := by
      rw [h1]; rfl
    refine ⟨k, d, hd, hok, h1', h3, h4, h5, h6, ?_⟩
    intro size_in_bytes data_size
    rw [h1']
    rfl
  · exact absurd (programLoop_all_fail devices 0 Handles.initial hall).1 hpast

/-! ## Exit status: C5 -/

/-- C5, as the code has it: once a device has been programmed, the pipeline has
run and both output files have been opened, the run ends by printing
"TEST PASSED" with status 0 if and only if the accelerator output equals the
reference output at every index below `data_size`; if they differ at some index
it ends by printing "TEST FAILED" with the non-zero status `EXIT_FAILURE`. -/
theorem verdict_reflects_comparison_when_files_open (w : World)
    (data out_data_serial out_data_parallel : List Int) (data_size : Int)
    (size_in_bytes fuel : Nat)
    (hdata : (data.length : Int) = data_size)
    (hs : (out_data_serial.length : Int) = data_size)
    (hp : (out_data_parallel.length : Int) = data_size)
    (hfuel : data_size.toNat < fuel)
    (hsome : ∃ d ∈ w.devices, d.programErr = CL_SUCCESS)
    (ho1 : w.parallelOpens = true) (ho2 : w.serialOpens = true) :
    ∃ run line reference accelerator,
      offload w data out_data_serial out_data_parallel data_size size_in_bytes fuel = .ok run ∧
      serialLoop data w.maximum data_size fuel 0 out_data_serial = .ok reference ∧
      accelerator = deviceResult w data out_data_parallel data_size ∧
      Event.finish (programLoop w.devices 0 Handles.initial).1.q ∈ run.events ∧
      run.events.getLast? = some (.cout line) ∧
      ((run.status = 0 ∧ render line = "TEST PASSED\n") ↔
        ∀ i : Nat, (i : Int) < data_size → reference.getD i 0 = accelerator.getD i 0) ∧
      ((∃ i : Nat, (i : Int) < data_size ∧ reference.getD i 0 ≠ accelerator.getD i 0) →
        run.status ≠ 0 ∧ run.status = EXIT_FAILURE ∧ render line = "TEST FAILED\n") := by
  subst hdata
  have hs' : out_data_serial.length = data.length := by exact_mod_cast hs
  have hp' : out_data_parallel.length = data.length := by exact_mod_cast hp
  have hf : data.length < fuel := by simpa using hfuel
  have hS : (data.map fun v => thresholding v w.maximum 90).length = data.length := by simp
  have hP : (deviceResult w data out_data_parallel data.length).length = data.length := by
    rw [deviceResult_length, hp']
  obtain ⟨m, hm, hrun⟩ := offload_ok w data out_data_serial out_data_parallel data.length
    size_in_bytes fuel rfl hs' hp' hf (valid_device_of_programmable w.devices hsome) ho1 ho2
  have hfin : Event.finish (programLoop w.devices 0 Handles.initial).1.q ∈
      (programLoop w.devices 0 Handles.initial).2 ++
        pipeline (programLoop w.devices 0 Handles.initial).1 size_in_bytes data.length := by
    apply List.mem_append_right
    simp [pipeline]
  by_cases heq : ∀ i, i < data.length →
      (data.map fun v => thresholding v w.maximum 90).getD i 0 =
        (deviceResult w data out_data_parallel data.length).getD i 0
  · have hm0 : m = 0 :=
      Except.ok.inj (hm.symm.trans (compare_of_equal _ _ data.length fuel hS hP heq hf))
    subst hm0
    refine ⟨_, verdictLine 0, _, _, hrun,
      serialLoop_eq_map data out_data_serial _ data.length fuel rfl hs' hf, rfl, ?_, ?_, ?_, ?_⟩
    · exact List.mem_append_left _ (List.mem_append_left _ (List.mem_append_left _ hfin))
    · simp
    · constructor
      · intro _ i hi
        exact heq i (by exact_mod_cast hi)
      · intro _
        exact ⟨rfl, rfl⟩
    · rintro ⟨i, hi, hne⟩
      exact absurd (heq i (by exact_mod_cast hi)) hne
  · have hne : (data.map fun v => thresholding v w.maximum 90) ≠
        deviceResult w data out_data_parallel data.length := by
      intro h
      exact heq (fun i _ => by rw [h])
    obtain ⟨k, hk⟩ := exists_lowestMismatch _ _ (by rw [hS, hP]) hne
    have hm1 : m = 1 :=
      Except.ok.inj (hm.symm.trans (compare_of_mismatch _ _ data.length k fuel hS hP hk hf))
    subst hm1
    refine ⟨_, verdictLine 1, _, _, hrun,
      serialLoop_eq_map data out_data_serial _ data.length fuel rfl hs' hf, rfl, ?_, ?_, ?_, ?_⟩
    · exact List.mem_append_left _ (List.mem_append_left _ (List.mem_append_left _ hfin))
    · simp
    · constructor
      · rintro ⟨h, _⟩
        exact absurd h (by decide : exitStatus 1 ≠ 0)
      · intro h
        exact absurd (fun i hi => h i (by exact_mod_cast hi)) heq
    · intro _
      exact ⟨(by decide : exitStatus 1 ≠ 0), rfl, rfl⟩

/-- C5 as stated fails: in the sample run with an output file that cannot be
opened, the device is programmed, the pipeline runs to `q.finish()` and the
accelerator output equals the reference output at every index, yet the run
ends with status 1 (line 205) and prints neither "TEST PASSED" nor
"TEST FAILED". -/
theorem agreeing_run_exits_with_failure_when_file_unwritable :
    (programLoop unwritableWorld.devices 0 Handles.initial).1.valid_device = 1 ∧
    (main unwritableWorld 5).map (fun run => decide (Event.finish (some 2) ∈ run.events)) =
      .ok true ∧
    serialLoop [50, 100, 150, 200] unwritableWorld.maximum 4 5 0 [7, 7, 7, 7] =
      .ok (deviceResult unwritableWorld [50, 100, 150, 200] [9, 9, 9, 9] 4) ∧
    (main unwritableWorld 5).map Run.status = .ok 1 ∧
    (main unwritableWorld 5).map (fun run => run.events.getLast?) =
      .ok (some (.cerr [.str "Error Opening Output File", .endl])) ∧
    (main unwritableWorld 5).map (fun run =>
        decide (Event.cout (verdictLine 0) ∈ run.events ∨
          Event.cout (verdictLine 1) ∈ run.events)) = .ok false ∧
    main unwritableWorld 5 =
      offload unwritableWorld [50, 100, 150, 200] [7, 7, 7, 7] [9, 9, 9, 9] 4 16 5 := by
  refine ⟨by decide, by decide, by decide, by decide, by decide, by decide, by decide⟩

/-! ## Output files: C8 -/

/-- C8: for a loaded image (`width * length` samples) each of the two output
files holds, line by line, the format tag of the input, its comment, its width
and height, the literal 1 in place of the maximum, and then exactly
`width * length` samples in raster order: the device results in
`parallel_coins.ascii.pgm`, the reference results in `serial_coins.ascii.pgm`. -/
theorem output_files_keep_input_structure (w : World)
    (data out_data_serial out_data_parallel : List Int) (size_in_bytes fuel : Nat)
    (hdata : (data.length : Int) = w.width * w.length)
    (hs : (out_data_serial.length : Int) = w.width * w.length)
    (hp : (out_data_parallel.length : Int) = w.width * w.length)
    (hfuel : (w.width * w.length).toNat < fuel)
    (hsome : ∃ d ∈ w.devices, d.programErr = CL_SUCCESS)
    (ho1 : w.parallelOpens = true) (ho2 : w.serialOpens = true) :
    ∃ run parallelFile serialFile parallelSamples serialSamples,
      offload w data out_data_serial out_data_parallel (w.width * w.length) size_in_bytes fuel =
        .ok run ∧
      Event.fileWritten "parallel_coins.ascii.pgm" parallelFile ∈ run.events ∧
      Event.fileWritten "serial_coins.ascii.pgm" serialFile ∈ run.events ∧
      linesOf parallelFile =
        [[.str w.file_type], [.str w.comments], [.int w.width, .str " ", .int w.length],
         [.int 1], sampleItems parallelSamples] ∧
      linesOf serialFile =
        [[.str w.file_type], [.str w.comments], [.int w.width, .str " ", .int w.length],
         [.int 1], sampleItems serialSamples] ∧
      parallelSamples = deviceResult w data out_data_parallel (w.width * w.length) ∧
      serialSamples = data.map (fun v => thresholding v w.maximum 90) ∧
      (parallelSamples.length : Int) = w.width * w.length ∧
      (serialSamples.length : Int) = w.width * w.length := by
  rw [← hdata] at hs hp hfuel ⊢
  have hs' : out_data_serial.length = data.length := by exact_mod_cast hs
  have hp' : out_data_parallel.length = data.length := by exact_mod_cast hp
  have hf : data.length < fuel := by simpa using hfuel
  obtain ⟨m, _, hrun⟩ := offload_ok w data out_data_serial out_data_parallel data.length
    size_in_bytes fuel rfl hs' hp' hf (valid_device_of_programmable w.devices hsome) ho1 ho2
  refine ⟨_, _, _, _, _, hrun, ?_, ?_, linesOf_image _ _ _ _ _, linesOf_image _ _ _ _ _,
    rfl, rfl, ?_, ?_⟩
  · simp
  · simp
  · rw [deviceResult_length, hp']
  · simp

/-! ## Sample reading: C10 -/

/-- C10 fails on the code: the sample reading loop has no bound.  On an input
whose header announces a `1x1` image and which holds the two samples `5 7`, the
second store is `data[1]` in an array of one cell. -/
theorem sample_reading_writes_past_the_array :
    readLoop [5, 7] 0 [0] = .error (.outOfBounds 1 1) ∧
    main overflowWorld 2 = .error (.outOfBounds 1 1) := by
  constructor <;> decide

/-! ## Instances -/

/-- Instance of C1: the `2x2` image with samples `50 100 150 200`. -/
theorem serial_pass_thresholds_each_sample_witness :
    ((([50, 100, 150, 200] : List Int).length : Int) = 4 ∧
      ((([7, 7, 7, 7] : List Int).length : Int) = 4) ∧ (4 : Int).toNat < 5) ∧
    ((∃ res, serialLoop [50, 100, 150, 200] 255 4 5 0 [7, 7, 7, 7] = .ok res ∧
      res.length = ([50, 100, 150, 200] : List Int).length ∧
      ∀ i, i < ([50, 100, 150, 200] : List Int).length →
        res.getD i 0 = if ([50, 100, 150, 200] : List Int).getD i 0 > 90 then 1 else 0) ∧
    (∀ value maximum threshold : Int,
      (value > threshold → thresholding value maximum threshold = 1) ∧
      (¬ value > threshold → thresholding value maximum threshold = 0)) ∧
    (∀ out : List Int, out.length = 4 →
      serialLoop [50, 100, 150, 200] 255 4 5 0 out = .ok [0, 1, 1, 1])) :=
  ⟨⟨by decide, by decide, by decide⟩,
    serial_pass_thresholds_each_sample [50, 100, 150, 200] [7, 7, 7, 7] 255 4 5
      (by decide) (by decide) (by decide)⟩

/-- Instance of C2: the `2x2` image with samples `50 100 150 200` and maximum 255. -/
theorem reference_output_same_length_and_binary_witness :
    ∃ res, serialLoop [50, 100, 150, 200] 255 (2 * 2) 5 0 [7, 7, 7, 7] = .ok res ∧
      res.length = ([50, 100, 150, 200] : List Int).length ∧
      (res.length : Int) = 2 * 2 ∧ ∀ x ∈ res, x = 0 ∨ x = 1 :=
  reference_output_same_length_and_binary 2 2 255 [50, 100, 150, 200] [7, 7, 7, 7] 5
    (by decide) (by decide) (by decide) (by decide) (by decide)

/-- Instance of C3: arrays that differ at index 2 only. -/
theorem compare_stops_at_lowest_mismatch_witness :
    ([0, 0, 1] : List Int) ≠ [0, 0, 0] ∧
    ∃ k, LowestMismatch [0, 0, 1] [0, 0, 0] k ∧
      compareLoop [0, 0, 1] [0, 0, 0] 3 4 { i := 0, match_ := 0, examined := [] } =
        .ok { i := k, match_ := 1, examined := List.range (k + 1) } ∧
      compare [0, 0, 1] [0, 0, 0] 3 4 = .ok 1 :=
  ⟨by decide,
    compare_stops_at_lowest_mismatch [0, 0, 1] [0, 0, 0] 3 4 (by decide) (by decide)
      (by decide) (by decide)⟩

/-- Instance of C4: the array `5 7` compared with itself. -/
theorem compare_with_itself_matches_witness :
    compare [5, 7] [5, 7] (([5, 7] : List Int).length : Int) 3 = .ok 0 ∧
    ∃ s, compareLoop [5, 7] [5, 7] (([5, 7] : List Int).length : Int) 3
        { i := 0, match_ := 0, examined := [] } = .ok s ∧ s.match_ = 0 :=
  compare_with_itself_matches [5, 7] 3 (by decide)

/-- Instance of C5: the sample run, in which the device results equal the
reference results. -/
theorem verdict_reflects_comparison_when_files_open_witness :
    ∃ run line reference accelerator,
      offload sampleWorld [50, 100, 150, 200] [7, 7, 7, 7] [9, 9, 9, 9] 4 16 5 = .ok run ∧
      serialLoop [50, 100, 150, 200] sampleWorld.maximum 4 5 0 [7, 7, 7, 7] = .ok reference ∧
      accelerator = deviceResult sampleWorld [50, 100, 150, 200] [9, 9, 9, 9] 4 ∧
      Event.finish (programLoop sampleWorld.devices 0 Handles.initial).1.q ∈ run.events ∧
      run.events.getLast? = some (.cout line) ∧
      ((run.status = 0 ∧ render line = "TEST PASSED\n") ↔
        ∀ i : Nat, (i : Int) < 4 → reference.getD i 0 = accelerator.getD i 0) ∧
      ((∃ i : Nat, (i : Int) < 4 ∧ reference.getD i 0 ≠ accelerator.getD i 0) →
        run.status ≠ 0 ∧ run.status = EXIT_FAILURE ∧ render line = "TEST FAILED\n") :=
  verdict_reflects_comparison_when_files_open sampleWorld [50, 100, 150, 200] [7, 7, 7, 7]
    [9, 9, 9, 9] 4 16 5 (by decide) (by decide) (by decide) (by decide)
    ⟨{ name := "d2", programErr := 0 }, by decide, by decide⟩ (by decide) (by decide)

/-- Instance of C6: three devices, the first two of which cannot be programmed;
the kernel is the one of device 2. -/
theorem first_programmable_device_wins_witness :
    (programLoop sampleWorld.devices 0 Handles.initial).1.krnl_threshold = some 2 ∧
    ∃ k, FirstProgrammable sampleWorld.devices k ∧
      (programLoop sampleWorld.devices 0 Handles.initial).1 =
        { context := some k, q := some k, krnl_threshold := some k, valid_device := 1 } ∧
      Event.newKernel k "threshold" ∈ (programLoop sampleWorld.devices 0 Handles.initial).2 ∧
      ∀ e ∈ (programLoop sampleWorld.devices 0 Handles.initial).2, ∀ j,
        e.createdFor = some j → j ≤ k :=
  ⟨by decide,
    first_programmable_device_wins sampleWorld.devices
      ⟨{ name := "d2", programErr := 0 }, by decide, by decide⟩⟩

/-- Instance of C7: two devices, none of which can be programmed. -/
theorem no_programmable_device_is_fatal_witness :
    (∀ d ∈ deadWorld.devices, d.programErr ≠ CL_SUCCESS) ∧
    ∃ run, offload deadWorld [50, 100, 150, 200] [7, 7, 7, 7] [9, 9, 9, 9] 4 16 5 = .ok run ∧
      run.events = (programLoop deadWorld.devices 0 Handles.initial).2 ++
        [.cout [.str "Failed to program any device found, exit!\n"]] ∧
      run.status = EXIT_FAILURE ∧ run.status ≠ 0 ∧
      (programLoop deadWorld.devices 0 Handles.initial).1.krnl_threshold = none ∧
      ∀ e ∈ run.events, e.usesSession = false :=
  ⟨by decide,
    no_programmable_device_is_fatal deadWorld [50, 100, 150, 200] [7, 7, 7, 7] [9, 9, 9, 9]
      4 16 5 (by decide)⟩

/-- Instance of C9: three devices, the first two of which cannot be programmed. -/
theorem session_is_whole_witness :
    (programLoop sampleWorld.devices 0 Handles.initial).1.valid_device ≠ 0 ∧
    ∃ k d, sampleWorld.devices[k]? = some d ∧ d.programErr = CL_SUCCESS ∧
      (programLoop sampleWorld.devices 0 Handles.initial).1 =
        { context := some k, q := some k, krnl_threshold := some k, valid_device := 1 } := by
  refine ⟨by decide, ?_⟩
  obtain ⟨k, d, h1, h2, h3, _⟩ := session_is_whole sampleWorld.devices (by decide)
  exact ⟨k, d, h1, h2, h3⟩

/-- Instance of C8: the sample run. -/
theorem output_files_keep_input_structure_witness :
    ∃ run parallelFile serialFile parallelSamples serialSamples,
      offload sampleWorld [50, 100, 150, 200] [7, 7, 7, 7] [9, 9, 9, 9]
        (sampleWorld.width * sampleWorld.length) 16 5 = .ok run ∧
      Event.fileWritten "parallel_coins.ascii.pgm" parallelFile ∈ run.events ∧
      Event.fileWritten "serial_coins.ascii.pgm" serialFile ∈ run.events ∧
      linesOf parallelFile =
        [[.str sampleWorld.file_type], [.str sampleWorld.comments],
         [.int sampleWorld.width, .str " ", .int sampleWorld.length],
         [.int 1], sampleItems parallelSamples] ∧
      linesOf serialFile =
        [[.str sampleWorld.file_type], [.str sampleWorld.comments],
         [.int sampleWorld.width, .str " ", .int sampleWorld.length],
         [.int 1], sampleItems serialSamples] ∧
      parallelSamples = deviceResult sampleWorld [50, 100, 150, 200] [9, 9, 9, 9]
        (sampleWorld.width * sampleWorld.length) ∧
      serialSamples =
        ([50, 100, 150, 200] : List Int).map
          (fun v => thresholding v sampleWorld.maximum 90) ∧
      (parallelSamples.length : Int) = sampleWorld.width * sampleWorld.length ∧
      (serialSamples.length : Int) = sampleWorld.width * sampleWorld.length :=
  output_files_keep_input_structure sampleWorld [50, 100, 150, 200] [7, 7, 7, 7]
    [9, 9, 9, 9] 16 5 (by decide) (by decide) (by decide) (by decide)
    ⟨{ name := "d2", programErr := 0 }, by decide, by decide⟩ (by decide) (by decide)

/-- The sample run goes through: the device results equal the reference
results, the run prints the verdict of a match and returns 0. -/
theorem sample_run_passes :
    (main sampleWorld 5).map Run.status = .ok 0 ∧
    (main sampleWorld 5).map (fun run => run.events.getLast?) =
      .ok (some (.cout [.str "TEST ", .str "PASSED", .endl])) := by
  constructor <;> decide

end Host
